import Mathlib

/-!
Verification of the HealthAssist request/fallback core
(`src/health_assist_groq.py`) against its specification.

The Python source is shallowly embedded below.  Python strings are
modelled as Lean `String`/`List Char`; the ASCII fragments of
`str.lower`, `str.upper`-based `str.capitalize`, `str.strip`,
`str.split`, `str.endswith`, `str.join` and substring containment
(`k in text`) are reproduced exactly (the source only ever matches
ASCII keywords).  JSON values are modelled by the inductive `Json`;
`json.dumps` and Python `str()` are reproduced up to whitespace
layout and string escaping, neither of which any claim depends on.
The one blocking HTTP call is modelled by its observable outcome
(`HttpOutcome`): either a response with a status code, raw text and
optional parsed JSON body, or a requests-level network failure.
-/

set_option maxRecDepth 100000

/-- Build a character from a code point below the surrogate range. -/
def mkChar (n : Nat) (h1 : n < 55296) : Char :=
  ⟨⟨⟨⟨n, by omega⟩⟩⟩, Or.inl (by simpa [Nat.isValidChar] using h1)⟩

/-- ASCII model of Python `str.lower` applied to one character. -/
def lowerChar (c : Char) : Char :=
  if h : 65 ≤ c.toNat ∧ c.toNat ≤ 90 then mkChar (c.toNat + 32) (by omega)
  else c

/-- ASCII model of Python upper-casing of one character (used by `str.capitalize`). -/
def upperChar (c : Char) : Char :=
  if h : 97 ≤ c.toNat ∧ c.toNat ≤ 122 then mkChar (c.toNat - 32) (by omega)
  else c

/-- The whitespace characters removed by Python `str.strip()`. -/
def isPySpace (c : Char) : Bool :=
  c = ' ' || c = '\t' || c = '\n' || c = '\r' || c = mkChar 11 (by omega) || c = mkChar 12 (by omega)

/-- Python `str.strip()` on a character list: drop whitespace at both ends. -/
def stripL (l : List Char) : List Char :=
  ((l.dropWhile isPySpace).reverse.dropWhile isPySpace).reverse

/-- Python `str.split(sep)` for a one-character separator:
`"".split(".") = [""]`, `"a..b".split(".") = ["a", "", "b"]`. -/
def splitOnChar (sep : Char) : List Char → List (List Char)
  | [] => [[]]
  | c :: cs =>
    if c = sep then [] :: splitOnChar sep cs
    else
      match splitOnChar sep cs with
      | [] => [[c]]
      | g :: gs => (c :: g) :: gs

/-- Python `text.replace("\n", " ")`. -/
def replaceNl (l : List Char) : List Char :=
  l.map (fun c => if c = '\n' then ' ' else c)

/-- Python `str.capitalize()`: first character upper-cased, the rest lower-cased. -/
def pyCapitalize : List Char → List Char
  | [] => []
  | c :: cs => upperChar c :: cs.map lowerChar

/-- Python `". ".join(...)` on character lists. -/
def joinDotSpace : List (List Char) → List Char
  | [] => []
  | [g] => g
  | g :: g2 :: gs => g ++ '.' :: ' ' :: joinDotSpace (g2 :: gs)

/-- Python `summary.endswith(".")`: the last character is a period. -/
def endsWithDot : List Char → Bool
  | [] => false
  | [c] => c = '.'
  | _ :: c :: cs => endsWithDot (c :: cs)

/-- Whether `needle` occurs at the start of `hay`. -/
def startsWithL : List Char → List Char → Bool
  | [], _ => true
  | _ :: _, [] => false
  | a :: as, b :: bs => a = b && startsWithL as bs

/-- Python substring containment `needle in hay`. -/
def containsSub (needle : List Char) : List Char → Bool
  | [] => startsWithL needle []
  | c :: cs => startsWithL needle (c :: cs) || containsSub needle cs

/-- Python `str.strip()`. -/
def pyStrip (s : String) : String := String.mk (stripL s.data)

/-- Python `str.lower()` (ASCII fragment). -/
def pyLower (s : String) : String := String.mk (s.data.map lowerChar)

/-- Python `any(k in text for k in keys)`. -/
def anyKeyIn (keys : List String) (text : List Char) : Bool :=
  keys.any (fun k => containsSub k.data text)

def feverKeys : List String := ["fever", "temperature", "chills"]
def respKeys : List String := ["cough", "sputum", "shortness of breath", "dyspnea"]
def cardiacKeys : List String := ["chest pain", "palpitation"]
def emergencyKeys : List String := ["unconscious", "not breathing", "severe bleeding", "cardiac arrest"]
def highKeys : List String := ["high fever", "severe shortness of breath", "chest pain"]

def feverLine : String := "- CBC, CRP, blood cultures (if severe)"
def respLine : String := "- Chest X-ray, sputum culture, pulse oximetry"
def cardiacLine : String := "- ECG, troponin, chest X-ray"
def genericLine : String := "- Basic metabolic panel (BMP), CBC, ECG as clinically indicated"

def emergencyMsg : String := "Emergency — call code/transfer to ED immediately."
def highMsg : String := "High urgency — urgent evaluation within hours."
def lowMsg : String := "Low-moderate urgency — outpatient follow-up recommended."

/-- Body of `fallback_assistant` after `text = patient_text.strip().lower()`
has been computed (source lines 62-91). -/
def fallbackBody (text : List Char) (action : String) : String :=
  if action = "Summarize" then
    let sents := splitOnChar '.' (replaceNl text)
    let summary := joinDotSpace
      (((sents.take 3).filter (fun s => !(stripL s).isEmpty)).map (fun s => pyCapitalize (stripL s)))
    String.mk (summary ++ (if !summary.isEmpty && !endsWithDot summary then ['.'] else []))
  else if action = "Suggest tests" then
    let suggestions : List String :=
      (if anyKeyIn feverKeys text then [feverLine] else []) ++
      (if anyKeyIn respKeys text then [respLine] else []) ++
      (if anyKeyIn cardiacKeys text then [cardiacLine] else [])
    let suggestions2 := if suggestions.isEmpty then [genericLine] else suggestions
    String.intercalate "\n" suggestions2
  else if action = "Triage urgency" then
    if anyKeyIn emergencyKeys text then emergencyMsg
    else if anyKeyIn highKeys text then highMsg
    else lowMsg
  else if action = "Generate SOAP note" then
    let subj := "Subjective: " ++ (String.mk (pyCapitalize ((splitOnChar '.' text).headD [])) ++ ".")
    let obj := "Objective: vitals not provided. Exam: to be performed."
    let assess := "Assessment: differential diagnosis to consider based on symptoms."
    let plan := "Plan: order tests as needed, symptomatic treatment, follow-up."
    subj ++ "\n\n" ++ obj ++ "\n\n" ++ assess ++ "\n\n" ++ plan
  else "Action not recognized."

/-- The normalization `text = patient_text.strip().lower()` at source line 63. -/
def normData (patient_text : String) : List Char := (pyLower (pyStrip patient_text)).data

/-- The local rule-based Fallback Generator (source lines 62-91). -/
def fallback_assistant (patient_text action : String) : String :=
  fallbackBody (normData patient_text) action

/-- JSON values as produced by `resp.json()` (numbers restricted to integers;
no claim involves numeric bodies). -/
inductive Json where
  | null : Json
  | bool (b : Bool) : Json
  | num (n : Int) : Json
  | str (s : String) : Json
  | arr (elems : List Json) : Json
  | obj (fields : List (String × Json)) : Json
deriving Repr

/-- Python `dict.get` on a JSON object's field list (keys are unique in JSON objects;
first match is returned). -/
def jget (fields : List (String × Json)) (key : String) : Option Json :=
  match fields with
  | [] => none
  | (k, v) :: rest => if k = key then some v else jget rest key

/-- Python truthiness of a JSON value. -/
def truthy : Json → Bool
  | .null => false
  | .bool b => b
  | .num n => n != 0
  | .str s => !s.isEmpty
  | .arr es => !es.isEmpty
  | .obj fs => !fs.isEmpty

/-- Python `a or b`. -/
def pyOrJ (a b : Json) : Json := if truthy a then a else b

mutual

/-- Python `json.dumps(·, indent=2)`, modelled up to whitespace layout and
string escaping (no claim inspects the serialized text itself). -/
def dumps : Json → String
  | .null => "null"
  | .bool true => "true"
  | .bool false => "false"
  | .num n => toString n
  | .str s => "\"" ++ s ++ "\""
  | .arr es => "[" ++ dumpsElems es ++ "]"
  | .obj fs => "\x7b" ++ dumpsFields fs ++ "\x7d"

/-- Serialize the elements of a JSON array. -/
def dumpsElems : List Json → String
  | [] => ""
  | [j] => dumps j
  | j :: rest => dumps j ++ ", " ++ dumpsElems rest

/-- Serialize the fields of a JSON object. -/
def dumpsFields : List (String × Json) → String
  | [] => ""
  | [(k, v)] => "\"" ++ k ++ "\": " ++ dumps v
  | (k, v) :: rest => "\"" ++ k ++ "\": " ++ dumps v ++ ", " ++ dumpsFields rest

end

mutual

/-- Python repr of a JSON value nested inside a container, up to quoting detail. -/
def pyRepr : Json → String
  | .null => "None"
  | .bool true => "True"
  | .bool false => "False"
  | .num n => toString n
  | .str s => String.singleton (mkChar 39 (by omega)) ++ s ++ String.singleton (mkChar 39 (by omega))
  | .arr es => "[" ++ pyReprElems es ++ "]"
  | .obj fs => "\x7b" ++ pyReprFields fs ++ "\x7d"

/-- Python repr of the elements of a list. -/
def pyReprElems : List Json → String
  | [] => ""
  | [j] => pyRepr j
  | j :: rest => pyRepr j ++ ", " ++ pyReprElems rest

/-- Python repr of the items of a dict. -/
def pyReprFields : List (String × Json) → String
  | [] => ""
  | [(k, v)] => pyRepr (.str k) ++ ": " ++ pyRepr v
  | (k, v) :: rest => pyRepr (.str k) ++ ": " ++ pyRepr v ++ ", " ++ pyReprFields rest

end

/-- Python `str()` applied to a JSON value. -/
def pyStr : Json → String
  | .str s => s
  | j => pyRepr j

/-- Python `j[key]` succeeding only on a dict containing the key. -/
def jField (j : Json) (key : String) : Option Json :=
  match j with
  | .obj fs => jget fs key
  | _ => none

/-- Python `j[i]` succeeding only on a list long enough. -/
def jIndex (j : Json) (i : Nat) : Option Json :=
  match j with
  | .arr es => es[i]?
  | _ => none

/-- The extraction `data["choices"][0]["message"]["content"]` attempted at
source line 56; `none` models any exception caught by the bare `except`. -/
def extractContent (data : Json) : Option Json :=
  (jField data "choices").bind fun cs =>
    (jIndex cs 0).bind fun c0 =>
      (jField c0 "message").bind fun m =>
        jField m "content"

/-- Observable outcome of the one `requests.post` call: an HTTP response
(status code, raw body text, and the result of `resp.json()`, `none` when the
body is not valid JSON so that `resp.json()` raises), or a requests-level
network failure (connection error / timeout). -/
inductive HttpOutcome where
  | response (status : Nat) (bodyText : String) (bodyJson : Option Json)
  | netError (msg : String)
deriving Repr

/-- The exceptions `call_groq_chat` can raise: `requests.HTTPError` with the
response attached (source lines 50-52), the `resp.json()` decode failure on a
200 response (source line 53), or the propagated network failure. -/
inductive CallError where
  | httpError (status : Nat) (bodyText : String) (bodyJson : Option Json)
  | decodeError (bodyText : String)
  | netError (msg : String)
deriving Repr

/-- `call_groq_chat` (source lines 29-59), as a function of the observable
HTTP outcome: raise `HTTPError` when the status is not 200; otherwise parse the
body (raising when it is not JSON) and return `choices[0].message.content` when
present, else the serialized body. -/
def call_groq_chat (outcome : HttpOutcome) : Except CallError Json :=
  match outcome with
  | .netError msg => .error (.netError msg)
  | .response status bodyText bodyJson =>
    if status ≠ 200 then .error (.httpError status bodyText bodyJson)
    else
      match bodyJson with
      | none => .error (.decodeError bodyText)
      | some data =>
        match extractContent data with
        | some content => .ok content
        | none => .ok (.str (dumps data))

/-- `err_json` from source lines 160-163: `resp.json()` when it parses,
else `{"message": resp.text}` (the response is always attached at line 51). -/
def errJsonOf (bodyText : String) (bodyJson : Option Json) : Json :=
  match bodyJson with
  | some j => j
  | none => .obj [("message", .str bodyText)]

/-- `err_msg` from source lines 165-171: from a dict take `error` (defaulting to
the dict itself); if that is a dict take `message` or `detail` or its repr;
finally default to the repr of the whole body when still falsy. -/
def computeErrMsg (errJson : Json) : Json :=
  let m0 : Json :=
    match errJson with
    | .obj fs =>
      let errObj := (jget fs "error").getD errJson
      match errObj with
      | .obj f2 => pyOrJ (pyOrJ ((jget f2 "message").getD .null) ((jget f2 "detail").getD .null)) (.str (pyStr errObj))
      | _ => .null
    | _ => .null
  if truthy m0 then m0 else .str (pyStr errJson)

/-- The decommissioned-model detection at source line 174. -/
def isDecommissionedMsg : Json → Bool
  | .str s => containsSub "decommissioned".data s.data ||
      containsSub "decommission".data s.data ||
      containsSub "model_decommissioned".data s.data
  | _ => false

/-- The outputs the button handler renders for the user (source lines 130-195),
keeping only content-bearing widgets. -/
inductive Shown where
  | noKeyWarning
  | remoteOutput (content : Json)
  | decommissionedError (errMsg : Json)
  | genericHttpError (status : Nat) (errMsg : Json)
  | genericError (e : CallError)
  | fallbackOutput (text : String)
deriving Repr

/-- Result of one button click: how many remote calls were made and what was shown. -/
structure RunResult where
  remoteCalls : Nat
  shown : List Shown
deriving Repr

/-- Whether a shown item is one of the three error displays. -/
def isErrorItem : Shown → Bool
  | .decommissionedError _ => true
  | .genericHttpError _ _ => true
  | .genericError _ => true
  | _ => false

/-- The `Run assistant` button handler (source lines 130-195): with an empty
key, warn and show the fallback output without any remote call; otherwise make
one remote call and either show its text, or classify the `HTTPError`
(decommissioned-model message vs. generic) and show the error followed by the
fallback output, or show any other exception followed by the fallback output. -/
def runAssistant (groqKey patientText action : String) (http : HttpOutcome) : RunResult :=
  if groqKey = "" then
    { remoteCalls := 0
      shown := [.noKeyWarning, .fallbackOutput (fallback_assistant patientText action)] }
  else
    match call_groq_chat http with
    | .ok content =>
      { remoteCalls := 1, shown := [.remoteOutput content] }
    | .error (.httpError status bodyText bodyJson) =>
      let errMsg := computeErrMsg (errJsonOf bodyText bodyJson)
      let errItem : Shown :=
        if isDecommissionedMsg errMsg then .decommissionedError errMsg
        else .genericHttpError status errMsg
      { remoteCalls := 1
        shown := [errItem, .fallbackOutput (fallback_assistant patientText action)] }
    | .error (.decodeError bodyText) =>
      { remoteCalls := 1
        shown := [.genericError (.decodeError bodyText),
                  .fallbackOutput (fallback_assistant patientText action)] }
    | .error (.netError msg) =>
      { remoteCalls := 1
        shown := [.genericError (.netError msg),
                  .fallbackOutput (fallback_assistant patientText action)] }

/-- Whether a `call_groq_chat` result is the `RemoteError` of the spec, i.e. a
raised `requests.HTTPError` carrying status and raw body. -/
def isRemoteError : Except CallError Json → Bool
  | .error (.httpError _ _ _) => true
  | _ => false

/-- Modelled from the words of claim C2: the lowercased note split on periods,
the first 3 non-empty fragments, each capitalized, joined with `". "`. -/
def claimSummarize (note : String) : String :=
  String.intercalate ". "
    ((((splitOnChar '.' (pyLower note).data).filter (fun s => !s.isEmpty)).take 3).map
      (fun s => String.mk (pyCapitalize s)))

/-- Specification-level restatement of the Summarize branch, as amended: strip
and lowercase the note, replace newlines by spaces, split on periods; among the
first 3 fragments keep those that are non-empty after stripping; capitalize
them, join with `". "`, and append one final period when the summary is
non-empty. -/
def summarizeSpec (note : String) : String :=
  let frags := (((splitOnChar '.' (replaceNl (normData note))).take 3).map stripL).filter
    (fun s => !s.isEmpty)
  let summary := joinDotSpace (frags.map pyCapitalize)
  if summary.isEmpty then "" else String.mk (summary ++ ['.'])

/-- The suggestion lines of exactly the keyword categories matched in a
normalized note, in the fixed fever / respiratory / cardiac order. -/
def matchedLines (text : List Char) : List String :=
  (if anyKeyIn feverKeys text then [feverLine] else []) ++
  (if anyKeyIn respKeys text then [respLine] else []) ++
  (if anyKeyIn cardiacKeys text then [cardiacLine] else [])

/-- Python `s.split("\n")`: the lines of a displayed text block. -/
def linesOf (s : String) : List String :=
  (splitOnChar '\n' s.data).map String.mk

/-- The 400-response body of the decommissioned-model example. -/
def decommissionBody : Json :=
  .obj [("error", .obj [("message", .str "model_decommissioned: foo")])]

/-- A well-formed success body carrying `choices[0].message.content = "hi"`. -/
def goodBody : Json :=
  .obj [("choices", .arr [.obj [("message", .obj [("content", .str "hi")])]])]


theorem mkChar_toNat (n : Nat) (h1 : n < 55296) : (mkChar n h1).toNat = n := rfl

theorem lowerChar_ne_dot {c : Char} (h : c ≠ '.') : lowerChar c ≠ '.' := by
  unfold lowerChar
  split_ifs with hc
  · intro hEq
    have h2 := congrArg Char.toNat hEq
    rw [mkChar_toNat] at h2
    have h3 : Char.toNat '.' = 46 := rfl
    omega
  · exact h

theorem upperChar_ne_dot {c : Char} (h : c ≠ '.') : upperChar c ≠ '.' := by
  unfold upperChar
  split_ifs with hc
  · intro hEq
    have h2 := congrArg Char.toNat hEq
    rw [mkChar_toNat] at h2
    have h3 : Char.toNat '.' = 46 := rfl
    omega
  · exact h

theorem map_lowerChar_no_dot {l : List Char} (h : '.' ∉ l) : '.' ∉ l.map lowerChar := by
  intro hm
  rcases List.mem_map.1 hm with ⟨c, hc, hEq⟩
  exact lowerChar_ne_dot (fun hcd => h (hcd ▸ hc)) hEq

theorem pyCapitalize_no_dot {l : List Char} (h : '.' ∉ l) : '.' ∉ pyCapitalize l := by
  cases l with
  | nil => simp [pyCapitalize]
  | cons c cs =>
    simp only [pyCapitalize, List.mem_cons]
    intro hm
    rcases hm with hm | hm
    · exact upperChar_ne_dot (fun hcd => h (by simp [hcd])) hm.symm
    · exact map_lowerChar_no_dot (fun hcs => h (List.mem_cons_of_mem c hcs)) hm

theorem pyCapitalize_ne_nil {l : List Char} (h : l ≠ []) : pyCapitalize l ≠ [] := by
  cases l with
  | nil => exact absurd rfl h
  | cons c cs => simp [pyCapitalize]

theorem splitOnChar_no_sep (sep : Char) (l : List Char) :
    ∀ g ∈ splitOnChar sep l, sep ∉ g := by
  induction l with
  | nil =>
    intro g hg
    simp [splitOnChar] at hg
    simp [hg]
  | cons c cs ih =>
    intro g hg
    by_cases hc : c = sep
    · rw [splitOnChar, if_pos hc] at hg
      rcases List.mem_cons.1 hg with hg | hg
      · simp [hg]
      · exact ih g hg
    · rw [splitOnChar, if_neg hc] at hg
      rcases hrec : splitOnChar sep cs with _ | ⟨g0, gs⟩
      · rw [hrec] at hg
        simp at hg
        subst hg
        simp
        exact fun hsep => hc hsep.symm
      · rw [hrec] at hg
        rcases List.mem_cons.1 hg with hg | hg
        · subst hg
          intro hmem
          rcases List.mem_cons.1 hmem with hmem | hmem
          · exact hc hmem.symm
          · exact ih g0 (hrec ▸ List.mem_cons_self g0 gs) hmem
        · exact ih g (hrec ▸ List.mem_cons_of_mem g0 hg)

theorem stripL_subset {x : Char} {l : List Char} (h : x ∈ stripL l) : x ∈ l := by
  unfold stripL at h
  rw [List.mem_reverse] at h
  have h1 := (List.dropWhile_sublist isPySpace).subset h
  rw [List.mem_reverse] at h1
  exact (List.dropWhile_sublist isPySpace).subset h1

theorem stripL_no_dot {l : List Char} (h : '.' ∉ l) : '.' ∉ stripL l :=
  fun hm => h (stripL_subset hm)

theorem endsWithDot_append (a : List Char) {b : List Char} (hb : b ≠ []) :
    endsWithDot (a ++ b) = endsWithDot b := by
  induction a with
  | nil => rfl
  | cons x a ih =>
    show endsWithDot (x :: (a ++ b)) = endsWithDot b
    rw [← ih]
    rcases hab : a ++ b with _ | ⟨y, ys⟩
    · exact absurd (List.append_eq_nil.1 hab).2 hb
    · rfl

theorem endsWithDot_eq_false {g : List Char} (h : '.' ∉ g) : endsWithDot g = false := by
  induction g with
  | nil => rfl
  | cons c cs ih =>
    cases cs with
    | nil =>
      simp [endsWithDot]
      intro hc
      exact h (by simp [hc])
    | cons d ds =>
      have h2 : '.' ∉ d :: ds := fun hm => h (List.mem_cons_of_mem c hm)
      exact ih h2

theorem endsWithDot_joinDotSpace (L : List (List Char))
    (h : ∀ g ∈ L, g ≠ [] ∧ '.' ∉ g) : endsWithDot (joinDotSpace L) = false := by
  induction L with
  | nil => rfl
  | cons g rest ih =>
    cases rest with
    | nil => exact endsWithDot_eq_false (h g (List.mem_cons_self g [])).2
    | cons g2 gs =>
      have hstep : joinDotSpace (g :: g2 :: gs) = g ++ '.' :: ' ' :: joinDotSpace (g2 :: gs) := rfl
      rw [hstep, endsWithDot_append g (by simp)]
      have hJ : endsWithDot (joinDotSpace (g2 :: gs)) = false :=
        ih (fun g2 hg2 => h g2 (List.mem_cons_of_mem g hg2))
      rcases hJrec : joinDotSpace (g2 :: gs) with _ | ⟨j, js⟩
      · decide
      · rw [hJrec] at hJ
        calc endsWithDot ('.' :: ' ' :: j :: js) = endsWithDot (j :: js) := rfl
          _ = false := hJ

theorem filter_strip_map_cap (l : List (List Char)) :
    (l.filter (fun s => !(stripL s).isEmpty)).map (fun s => pyCapitalize (stripL s)) =
      ((l.map stripL).filter (fun s => !s.isEmpty)).map pyCapitalize := by
  induction l with
  | nil => rfl
  | cons s rest ih =>
    simp only [List.map_cons, List.filter_cons]
    cases hs : !(stripL s).isEmpty
    · simpa [hs] using ih
    · simp [hs, ih]

theorem mk_append_ite (S : List Char) (hdf : S ≠ [] → endsWithDot S = false) :
    String.mk (S ++ (if !S.isEmpty && !endsWithDot S then ['.'] else [])) =
      (if S.isEmpty then "" else String.mk (S ++ ['.'])) := by
  cases S with
  | nil => rfl
  | cons c cs =>
    have h1 : endsWithDot (c :: cs) = false := hdf (by simp)
    rw [h1]
    rfl

theorem summarizeBody_eq (text : List Char) :
    fallbackBody text "Summarize" =
      (let frags := (((splitOnChar '.' (replaceNl text)).take 3).map stripL).filter
          (fun s => !s.isEmpty)
       let summary := joinDotSpace (frags.map pyCapitalize)
       if summary.isEmpty then "" else String.mk (summary ++ ['.'])) := by
  unfold fallbackBody
  rw [if_pos rfl]
  dsimp only
  rw [filter_strip_map_cap]
  apply mk_append_ite
  intro hne
  apply endsWithDot_joinDotSpace
  intro g hg
  rcases List.mem_map.1 hg with ⟨h0, hh0, rfl⟩
  have h12 := List.mem_filter.1 hh0
  have h2 : (!h0.isEmpty) = true := h12.2
  rcases List.mem_map.1 h12.1 with ⟨s, hs, rfl⟩
  have h3 : s ∈ splitOnChar '.' (replaceNl text) := List.take_subset 3 _ hs
  have h4 : '.' ∉ s := splitOnChar_no_sep '.' (replaceNl text) s h3
  have h5 : stripL s ≠ [] := by
    intro hnil
    rw [hnil] at h2
    simp at h2
  exact ⟨pyCapitalize_ne_nil h5, pyCapitalize_no_dot (stripL_no_dot h4)⟩

theorem string_data_append (a b : String) : (a ++ b).data = a.data ++ b.data := by
  cases a
  cases b
  rfl

theorem fallbackBody_suggest (text : List Char) :
    fallbackBody text "Suggest tests" =
      String.intercalate "\n"
        (if (matchedLines text).isEmpty then [genericLine] else matchedLines text) := rfl

theorem fallbackBody_triage (text : List Char) :
    fallbackBody text "Triage urgency" =
      (if anyKeyIn emergencyKeys text then emergencyMsg
       else if anyKeyIn highKeys text then highMsg
       else lowMsg) := rfl

theorem fallbackBody_soap (text : List Char) :
    fallbackBody text "Generate SOAP note" =
      ("Subjective: " ++ (String.mk (pyCapitalize ((splitOnChar '.' text).headD [])) ++ ".")) ++
        "\n\n" ++ "Objective: vitals not provided. Exam: to be performed." ++ "\n\n" ++
        "Assessment: differential diagnosis to consider based on symptoms." ++ "\n\n" ++
        "Plan: order tests as needed, symptomatic treatment, follow-up." := rfl

theorem fallbackBody_other (text : List Char) (action : String) (h1 : action ≠ "Summarize")
    (h2 : action ≠ "Suggest tests") (h3 : action ≠ "Triage urgency")
    (h4 : action ≠ "Generate SOAP note") :
    fallbackBody text action = "Action not recognized." := by
  unfold fallbackBody
  rw [if_neg h1, if_neg h2, if_neg h3, if_neg h4]

theorem fallback_nonempty (note action : String) (h : action ≠ "Summarize") :
    fallback_assistant note action ≠ "" := by
  by_cases h2 : action = "Suggest tests"
  · subst h2
    show fallbackBody (normData note) "Suggest tests" ≠ ""
    rw [fallbackBody_suggest]
    cases hf : anyKeyIn feverKeys (normData note) <;>
      cases hr : anyKeyIn respKeys (normData note) <;>
        cases hc : anyKeyIn cardiacKeys (normData note) <;>
          (simp only [matchedLines, hf, hr, hc]; decide)
  · by_cases h3 : action = "Triage urgency"
    · subst h3
      show fallbackBody (normData note) "Triage urgency" ≠ ""
      rw [fallbackBody_triage]
      cases he : anyKeyIn emergencyKeys (normData note) <;>
        cases hh : anyKeyIn highKeys (normData note) <;> decide
    · by_cases h4 : action = "Generate SOAP note"
      · subst h4
        show fallbackBody (normData note) "Generate SOAP note" ≠ ""
        rw [fallbackBody_soap]
        intro hEq
        have hd : _ ++ _ = ([] : List Char) := congrArg String.data hEq
        exact absurd (List.append_eq_nil.1 hd).2 (by decide)
      · show fallbackBody (normData note) action ≠ ""
        rw [fallbackBody_other (normData note) action h h2 h3 h4]
        decide

/-- C1, counterexample: with an empty CaseNote and Action = Summarize, a failing
remote call shows the error detail followed by a fallback output that is the
EMPTY string, refuting the claim that the Fallback Generator output contained in
the result is always non-empty. -/
theorem c1_counterexample :
    fallback_assistant "" "Summarize" = "" ∧
    (runAssistant "k" "" "Summarize" (HttpOutcome.response 500 "boom" none)).shown =
      [Shown.genericHttpError 500 (Json.str "boom"), Shown.fallbackOutput ""] :=
  ⟨rfl, rfl⟩

/-- C1, amended: for every (CaseNote, Action) and every failure kind raised by
the Remote Client, the result shown to the caller is an error display carrying
the failure detail followed by the Fallback Generator's output for the same
(CaseNote, Action); that fallback output is non-empty for every Action other
than Summarize (for Summarize it can be empty, e.g. on an empty note). -/
theorem c1_failure_error_plus_fallback (key note action : String) (http : HttpOutcome)
    (e : CallError) (hk : key ≠ "") (he : call_groq_chat http = Except.error e) :
    ∃ errItem : Shown, isErrorItem errItem = true ∧
      (runAssistant key note action http).shown =
        [errItem, Shown.fallbackOutput (fallback_assistant note action)] ∧
      (action ≠ "Summarize" → fallback_assistant note action ≠ "") := by
  unfold runAssistant
  rw [if_neg hk, he]
  cases e with
  | httpError status bodyText bodyJson =>
    refine ⟨if isDecommissionedMsg (computeErrMsg (errJsonOf bodyText bodyJson)) then
        Shown.decommissionedError (computeErrMsg (errJsonOf bodyText bodyJson))
      else Shown.genericHttpError status (computeErrMsg (errJsonOf bodyText bodyJson)),
      ?_, rfl, fun ha => fallback_nonempty note action ha⟩
    cases isDecommissionedMsg (computeErrMsg (errJsonOf bodyText bodyJson)) <;> rfl
  | decodeError bodyText =>
    exact ⟨Shown.genericError (CallError.decodeError bodyText), rfl, rfl,
      fun ha => fallback_nonempty note action ha⟩
  | netError msg =>
    exact ⟨Shown.genericError (CallError.netError msg), rfl, rfl,
      fun ha => fallback_nonempty note action ha⟩

/-- C1, witness: a concrete failing call (network timeout) with a non-empty key
shows an error item plus the fallback output for the same note and action. -/
theorem c1_witness :
    ∃ errItem : Shown, isErrorItem errItem = true ∧
      (runAssistant "k" "note" "Triage urgency" (HttpOutcome.netError "timeout")).shown =
        [errItem, Shown.fallbackOutput (fallback_assistant "note" "Triage urgency")] ∧
      ("Triage urgency" ≠ "Summarize" → fallback_assistant "note" "Triage urgency" ≠ "") :=
  c1_failure_error_plus_fallback "k" "note" "Triage urgency" (HttpOutcome.netError "timeout")
    (CallError.netError "timeout") (by decide) rfl

/-- C2, counterexample: on the note "a..b.c" the code produces "A. B." — it
keeps the non-empty fragments among the FIRST 3 fragments and appends a final
period — while the claim's algorithm (first 3 non-empty fragments, plain
". "-join) produces "A. B. C". -/
theorem c2_counterexample :
    fallback_assistant "a..b.c" "Summarize" = "A. B." ∧
    claimSummarize "a..b.c" = "A. B. C" ∧
    fallback_assistant "a..b.c" "Summarize" ≠ claimSummarize "a..b.c" :=
  ⟨by decide, by decide, by decide⟩

/-- C2, amended: for every CaseNote, Summarize strips and lowercases the note,
replaces newlines with spaces, splits on periods, keeps the fragments that are
non-empty after stripping among the first 3 fragments, capitalizes each, joins
them with ". ", and appends one final period when the summary is non-empty. -/
theorem c2_summarize_amended (note : String) :
    fallback_assistant note "Summarize" = summarizeSpec note :=
  summarizeBody_eq (normData note)

theorem call_groq_chat_200 (bodyText : String) (data : Json) :
    call_groq_chat (HttpOutcome.response 200 bodyText (some data)) =
      (match extractContent data with
       | some content => Except.ok content
       | none => Except.ok (Json.str (dumps data))) := rfl

/-- C3, counterexample: 201 is a success (2xx) status, yet the client raises
the `HTTPError` carrying status and body, because the source tests
`status_code != 200`, not "non-2xx". -/
theorem c3_counterexample :
    (200 ≤ 201 ∧ 201 < 300) ∧
    call_groq_chat (HttpOutcome.response 201 "created" (some (Json.obj []))) =
      Except.error (CallError.httpError 201 "created" (some (Json.obj []))) :=
  ⟨⟨by decide, by decide⟩, rfl⟩

/-- C3, amended: the client raises the `RemoteError` (an `HTTPError` carrying
the status code and the raw response body) exactly when the status differs
from 200; on a 200 response that error is never raised. -/
theorem c3_remote_error_amended (status : Nat) (bodyText : String) (bodyJson : Option Json) :
    (status ≠ 200 →
      call_groq_chat (HttpOutcome.response status bodyText bodyJson) =
        Except.error (CallError.httpError status bodyText bodyJson)) ∧
    (status = 200 →
      isRemoteError (call_groq_chat (HttpOutcome.response status bodyText bodyJson)) = false) := by
  constructor
  · intro h
    simp only [call_groq_chat]
    rw [if_pos h]
  · intro h
    subst h
    cases bodyJson with
    | none => rfl
    | some data =>
      rw [call_groq_chat_200]
      cases hx : extractContent data <;> rfl

/-- C3, witness: a concrete 404 response raises the `HTTPError` carrying the
status and raw body. -/
theorem c3_witness :
    call_groq_chat (HttpOutcome.response 404 "not found" none) =
      Except.error (CallError.httpError 404 "not found" none) :=
  (c3_remote_error_amended 404 "not found" none).1 (by decide)

/-- C4, counterexample: a 200 response whose body is not valid JSON makes
`resp.json()` raise, so the client DOES fail on this malformed success body
instead of returning the raw serialized response as the text. -/
theorem c4_counterexample :
    call_groq_chat (HttpOutcome.response 200 "plain text body" none) =
      Except.error (CallError.decodeError "plain text body") := rfl

/-- C4, amended: on a 200 response whose body parses as JSON the client never
fails: it returns `choices[0].message.content` when that path exists (in
particular the string itself when it is a string), and the serialized body
otherwise; but a 200 response with a non-JSON body raises a decode error. -/
theorem c4_success_amended (bodyText : String) (data : Json) :
    (∀ c, extractContent data = some c →
      call_groq_chat (HttpOutcome.response 200 bodyText (some data)) = Except.ok c) ∧
    (extractContent data = none →
      call_groq_chat (HttpOutcome.response 200 bodyText (some data)) =
        Except.ok (Json.str (dumps data))) ∧
    call_groq_chat (HttpOutcome.response 200 bodyText none) =
      Except.error (CallError.decodeError bodyText) := by
  refine ⟨fun c hc => ?_, fun hn => ?_, rfl⟩
  · rw [call_groq_chat_200, hc]
  · rw [call_groq_chat_200, hn]

/-- C4, witness: a concrete well-formed 200 body yields its content string. -/
theorem c4_witness :
    call_groq_chat (HttpOutcome.response 200 "raw" (some goodBody)) =
      Except.ok (Json.str "hi") :=
  (c4_success_amended "raw" goodBody).1 (Json.str "hi") rfl

/-- C5: with Action = Suggest tests, when no keyword category matches the
output is exactly the single generic line; when at least one matches, the
output's lines are exactly the suggestion lines of the matched categories in
the fixed fever / respiratory / cardiac order, and the generic line is not
among them. -/
theorem c5_suggest_tests (note : String) :
    (matchedLines (normData note) = [] →
      fallback_assistant note "Suggest tests" = genericLine) ∧
    (matchedLines (normData note) ≠ [] →
      linesOf (fallback_assistant note "Suggest tests") = matchedLines (normData note) ∧
      genericLine ∉ matchedLines (normData note)) := by
  have hb : fallback_assistant note "Suggest tests" =
      String.intercalate "\n"
        (if (matchedLines (normData note)).isEmpty then [genericLine]
         else matchedLines (normData note)) :=
    fallbackBody_suggest (normData note)
  rw [hb]
  cases hf : anyKeyIn feverKeys (normData note) <;>
    cases hr : anyKeyIn respKeys (normData note) <;>
      cases hc : anyKeyIn cardiacKeys (normData note) <;>
        (simp only [matchedLines, hf, hr, hc]; decide)

/-- C5, witness: the note "Patient has fever and cough." matches the fever and
respiratory categories, so the output has exactly those two lines, each on its
own line, with no generic line. -/
theorem c5_witness :
    matchedLines (normData "Patient has fever and cough.") = [feverLine, respLine] ∧
    linesOf (fallback_assistant "Patient has fever and cough." "Suggest tests") =
      matchedLines (normData "Patient has fever and cough.") ∧
    genericLine ∉ matchedLines (normData "Patient has fever and cough.") :=
  ⟨by decide, (c5_suggest_tests "Patient has fever and cough.").2 (by decide)⟩

/-- C6: with Action = Triage urgency the emergency keyword set is tested before
the high-urgency set, so every note whose normalized text contains
"cardiac arrest" yields the Emergency tier, whatever other keywords occur. -/
theorem c6_cardiac_arrest_emergency (note : String)
    (h : containsSub "cardiac arrest".data (normData note) = true) :
    fallback_assistant note "Triage urgency" = emergencyMsg := by
  have hany : anyKeyIn emergencyKeys (normData note) = true := by
    simp [anyKeyIn, emergencyKeys, h]
  have hb : fallback_assistant note "Triage urgency" =
      (if anyKeyIn emergencyKeys (normData note) then emergencyMsg
       else if anyKeyIn highKeys (normData note) then highMsg
       else lowMsg) :=
    fallbackBody_triage (normData note)
  rw [hb, hany]
  rfl

/-- C6, witness: a note containing both the high-urgency keyword "chest pain"
and "cardiac arrest" is still classified as Emergency. -/
theorem c6_witness :
    fallback_assistant "Chest pain, then cardiac arrest." "Triage urgency" = emergencyMsg :=
  c6_cardiac_arrest_emergency "Chest pain, then cardiac arrest." (by decide)

/-- C7: a 400 response whose body is
`{"error": {"message": "model_decommissioned: foo"}}` is classified as the
decommissioned-model case (the display carrying the model-selection hint), not
as the generic error display. -/
theorem c7_decommissioned_classification :
    (runAssistant "key" "note" "Summarize"
        (HttpOutcome.response 400 "raw" (some decommissionBody))).shown =
      [Shown.decommissionedError (Json.str "model_decommissioned: foo"),
       Shown.fallbackOutput (fallback_assistant "note" "Summarize")] := rfl

/-- C8: with an empty Credential the handler makes zero remote calls and shows
exactly the no-key warning plus the Fallback Generator's output for the same
(CaseNote, Action); with a non-empty Credential it routes to the Remote Client
(exactly one remote call). -/
theorem c8_credential_routing (key note action : String) (http : HttpOutcome) :
    (runAssistant "" note action http =
      { remoteCalls := 0
        shown := [Shown.noKeyWarning,
                  Shown.fallbackOutput (fallback_assistant note action)] }) ∧
    (key ≠ "" → (runAssistant key note action http).remoteCalls = 1) := by
  constructor
  · rfl
  · intro hk
    unfold runAssistant
    rw [if_neg hk]
    cases call_groq_chat http with
    | ok c => rfl
    | error e => cases e <;> rfl

/-- C8, witness: a concrete non-empty key makes exactly one remote call. -/
theorem c8_witness :
    (runAssistant "k" "n" "Summarize" (HttpOutcome.netError "down")).remoteCalls = 1 :=
  (c8_credential_routing "k" "n" "Summarize" (HttpOutcome.netError "down")).2 (by decide)

/-- C9: Summarize of the empty CaseNote yields exactly the empty string. -/
theorem c9_empty_summarize : fallback_assistant "" "Summarize" = "" := rfl

/-- C10: the Fallback Generator factors through `strip().lower()`: any two
notes that agree after stripping outer whitespace and lowercasing — in
particular notes differing only in letter case and/or leading and trailing
whitespace — produce identical output for every action. -/
theorem c10_case_whitespace_insensitive (action n1 n2 : String)
    (h : pyLower (pyStrip n1) = pyLower (pyStrip n2)) :
    fallback_assistant n1 action = fallback_assistant n2 action := by
  unfold fallback_assistant normData
  rw [h]

/-- C10, witness: a concrete pair differing only in case and outer whitespace
gets the same suggestion output. -/
theorem c10_witness :
    fallback_assistant "  FEVER and Chills. " "Suggest tests" =
      fallback_assistant "fever and chills." "Suggest tests" :=
  c10_case_whitespace_insensitive "Suggest tests" "  FEVER and Chills. " "fever and chills."
    (by decide)
